import Mathlib

/-!
Shallow embedding of the core logic of `src/surge/ip-security.js`
(Surge IP Security Check Script, v4.0.0).

JavaScript values are modelled as follows: strings become `String`,
JSON numbers on the paths the claims exercise become `Int` (or `Nat`
where the source can only produce digits), a value that may be
`null`/`undefined` becomes `Option _`, and JS truthiness tests on a
string (`if (s)`) become `s ≠ ""` on `some s`.  Each provider payload
is modelled by a structure holding exactly the fields the script
reads.  Side effects ($persistentStore reads/writes, $httpClient
queries, $done emissions) are made explicit by threading state and
returning logs.
-/

namespace IpSecurity

/-- Substring match of the needle at the head of the haystack. -/
def startsWithCh : List Char → List Char → Bool
  | [], _ => true
  | _ :: _, [] => false
  | n :: ns, c :: cs => n == c && startsWithCh ns cs

/-- Substring containment over character lists. -/
def containsCh (needle : List Char) : List Char → Bool
  | [] => needle.isEmpty
  | c :: cs => startsWithCh needle (c :: cs) || containsCh needle cs

/-- JS `String.prototype.includes(pat)` (substring containment). -/
def strContains (s pat : String) : Bool :=
  containsCh pat.data s.data

/-- JS `String.prototype.split(sep)` for a one-character separator (the
only kind the script uses). -/
def splitOnCh (sep : Char) : List Char → List (List Char)
  | [] => [[]]
  | c :: cs =>
    match splitOnCh sep cs with
    | [] => [[]]
    | h :: t => if c = sep then [] :: h :: t else (c :: h) :: t

/-- ASCII-only lowercasing, the canonicalization relevant to the `/i`
regex flag on ASCII patterns. -/
def strLower (s : String) : String := String.mk (s.data.map Char.toLower)

/-- ASCII-only uppercasing (`cc.toUpperCase()` on two-letter codes). -/
def strUpper (s : String) : String := String.mk (s.data.map Char.toUpper)

/-- JS `x || null` applied to a possibly-absent string: an empty string
is falsy and collapses to `null` (`none`). -/
def truthyOrNull (o : Option String) : Option String :=
  match o with
  | some s => if s = "" then none else some s
  | none => none

/-- JS truthiness of a possibly-absent string (`undefined`, `null` and
`""` are falsy). -/
def truthyS (o : Option String) : Bool :=
  match o with
  | some s => s != ""
  | none => false

/-! ### Scamalytics HTML parsing

`parseScamalyticsScore(html)` matches `/Fraud Score[^0-9]*([0-9]{1,3})/i`
and returns `Number(m[1])`, or `null` if the pattern never matches. -/

/-- Membership in the `[0-9]` character class. -/
def isDig (c : Char) : Bool := 48 ≤ c.toNat && c.toNat ≤ 57

/-- Numeric value of a `[0-9]` character. -/
def digitVal (c : Char) : Nat := c.toNat - 48

/-- Case-insensitive literal match (the `/i` flag on an ASCII pattern):
if `pat` matches a prefix of `cs` up to ASCII case, return the rest. -/
def ciMatch : List Char → List Char → Option (List Char)
  | [], cs => some cs
  | _ :: _, [] => none
  | p :: ps, c :: cs => if p.toLower == c.toLower then ciMatch ps cs else none

/-- Semantics of `[^0-9]*` followed by a digit: drop characters up to
the first digit (the greedy non-digit run must stop there for the
following `[0-9]{1,3}` to match). -/
def afterNonDigits : List Char → List Char
  | [] => []
  | c :: cs => if isDig c then c :: cs else afterNonDigits cs

/-- The run of digits captured by greedy `([0-9]{1,3})`: at most the
first three consecutive digits. -/
def firstDigits3 (cs : List Char) : List Char := (cs.takeWhile isDig).take 3

/-- Attempt the whole pattern at one start position; on success return
`Number` of the 1–3 captured digits. -/
def scamTryAt (cs : List Char) : Option Nat :=
  match ciMatch "Fraud Score".toList cs with
  | none => none
  | some rest =>
    match firstDigits3 (afterNonDigits rest) with
    | [] => none
    | [a] => some (digitVal a)
    | [a, b] => some (digitVal a * 10 + digitVal b)
    | a :: b :: c :: _ => some ((digitVal a * 10 + digitVal b) * 10 + digitVal c)

/-- Scan the unanchored pattern across all start positions, leftmost
match first (JS `String.prototype.match` semantics). -/
def scamScan : List Char → Option Nat
  | [] => none
  | c :: cs =>
    match scamTryAt (c :: cs) with
    | some n => some n
    | none => scamScan cs

/-- Embedding of `parseScamalyticsScore(html)`: evaluate
`html?.match(/Fraud Score[^0-9]*([0-9]{1,3})/i)` and return
`Number(m[1])` on a match, `null` otherwise. -/
def parseScamalyticsScore (html : Option String) : Option Nat :=
  match html with
  | none => none
  | some s => scamScan s.data

/-! ### Risk resolver (`getRiskScore`) -/

/-- The `{score, source}` value returned by `getRiskScore`. -/
structure RiskResult where
  score : Int
  source : String
deriving DecidableEq, Repr

/-- The persisted `riskScoreCache` entry `{ip, score, source}`.  The
persisted-store state is `Option RiskCacheEntry`: `none` models an
absent key or a cached string whose `JSON.parse` fails. -/
structure RiskCacheEntry where
  ip : String
  score : Int
  source : String
deriving DecidableEq, Repr

/-- The fields of an IPQualityScore response the script reads. -/
structure IpqsPayload where
  success : Bool
  fraud_score : Option Int
deriving DecidableEq, Repr

/-- The entry `proxyData[ip]` of a ProxyCheck response (the script only
reads the key equal to the queried address). -/
structure ProxyEntry where
  risk : Option Int
deriving DecidableEq, Repr

/-- The provider world one `getRiskScore` call runs against: the
configured credential (`""` when absent, as `parseArguments` yields)
and the response each provider would give if queried (`none` models a
transport failure or unparseable JSON). -/
structure RiskEnv where
  ipqsKey : String
  ipqsResp : Option IpqsPayload
  proxyResp : Option ProxyEntry
  scamHtml : Option String
deriving DecidableEq, Repr

/-- Tags recording which providers a `getRiskScore` call queried. -/
inductive Provider where
  | ipqs
  | proxyCheck
  | scamalytics
deriving DecidableEq, Repr

/-- The check `data?.success && data?.fraud_score !== undefined` as an
optional score: `some` exactly when tier 1 succeeds. -/
def ipqsScore (d : Option IpqsPayload) : Option Int :=
  match d with
  | some p => if p.success then p.fraud_score else none
  | none => none

/-- The lookup `proxyData?.[ip]?.risk` as an optional score. -/
def proxyRisk (d : Option ProxyEntry) : Option Int :=
  match d with
  | some e => e.risk
  | none => none

/-- Result of `getRiskScore`: the returned value, the risk-cache state
after the call, and the list of providers queried. -/
abbrev RiskOutcome := RiskResult × Option RiskCacheEntry × List Provider

/-- Embedding of `saveAndReturn(score, source)`: write
`{ip, score, source}` to the risk cache, then return `{score, source}`. -/
def saveAndReturn (ip : String) (score : Int) (source : String)
    (queried : List Provider) : RiskOutcome :=
  (⟨score, source⟩, some ⟨ip, score, source⟩, queried)

/-- Tiers 2 and 3 of `getRiskScore`: ProxyCheck and Scamalytics are both
queried (in parallel in the source), ProxyCheck is checked first, and
the default tuple is saved if neither yields a score. -/
def riskTier23 (env : RiskEnv) (ip : String) (queried : List Provider) : RiskOutcome :=
  let queried := queried ++ [Provider.proxyCheck, Provider.scamalytics]
  match proxyRisk env.proxyResp with
  | some r => saveAndReturn ip r "ProxyCheck" queried
  | none =>
    match parseScamalyticsScore env.scamHtml with
    | some s => saveAndReturn ip (Int.ofNat s) "Scamalytics" queried
    | none => saveAndReturn ip 50 "Default" queried

/-- The cache-miss path of `getRiskScore`: tier 1 (IPQualityScore) only
when a credential is configured, then tiers 2–3. -/
def riskMiss (env : RiskEnv) (ip : String) : RiskOutcome :=
  if env.ipqsKey ≠ "" then
    match ipqsScore env.ipqsResp with
    | some n => saveAndReturn ip n "IPQS" [Provider.ipqs]
    | none => riskTier23 env ip [Provider.ipqs]
  else
    riskTier23 env ip []

/-- Embedding of `getRiskScore(ip)`: cache check, then the tiered
fallback chain. -/
def getRiskScore (env : RiskEnv) (cache : Option RiskCacheEntry) (ip : String) :
    RiskOutcome :=
  match cache with
  | some c => if c.ip = ip then (⟨c.score, c.source⟩, cache, []) else riskMiss env ip
  | none => riskMiss env ip

/-! ### IP-type resolver (`getIPType`) -/

/-- The fields of an IPPure `/v1/info` response the script reads.  A JS
field that may be absent is an `Option`; `isResidential !== undefined`
is `isResidential.isSome`. -/
structure IpPureInfo where
  isResidential : Option Bool
  isBroadcast : Option Bool
deriving DecidableEq, Repr

/-- The `{ipType, ipSrc}` value returned by `getIPType`. -/
structure IPTypeResult where
  ipType : String
  ipSrc : String
deriving DecidableEq, Repr

/-- Regex `/住宅|[Rr]esidential/` used on the `/v1/card` HTML. -/
def cardResidentialTest (h : String) : Bool :=
  strContains h "住宅" || strContains h "residential" || strContains h "Residential"

/-- Regex `/廣播|[Bb]roadcast|[Aa]nnounced/` used on the `/v1/card` HTML. -/
def cardBroadcastTest (h : String) : Bool :=
  strContains h "廣播" || strContains h "broadcast" || strContains h "Broadcast"
    || strContains h "announced" || strContains h "Announced"

/-- Tier 2 of `getIPType()`: the `/v1/card` HTML fallback and the final
unknown/unknown sentinel.  `card` is the raw body delivered by
`httpRaw` (`none` for transport failure; `d || null` in `httpRaw`
already turned `""` into `null`, and `if (html)` re-checks truthiness). -/
def getIPTypeTier2 (card : Option String) : IPTypeResult :=
  match card with
  | some h =>
    if h ≠ "" then
      { ipType := if cardResidentialTest h then "住宅 IP" else "機房 IP",
        ipSrc := if cardBroadcastTest h then "廣播 IP" else "原生 IP" }
    else ⟨"未知", "未知"⟩
  | none => ⟨"未知", "未知"⟩

/-- Embedding of `getIPType()`: tier 1 succeeds iff
`info.isResidential !== undefined` (any boolean value); otherwise the
`/v1/card` fallback runs.  `info` is the parsed `/v1/info` JSON
(`none` for transport failure or unparseable JSON). -/
def getIPType (info : Option IpPureInfo) (card : Option String) : IPTypeResult :=
  match info with
  | some i =>
    match i.isResidential with
    | some b =>
      { ipType := if b then "住宅 IP" else "機房 IP",
        ipSrc := if i.isBroadcast.getD false then "廣播 IP" else "原生 IP" }
    | none => getIPTypeTier2 card
  | none => getIPTypeTier2 card

/-! ### Policy discovery (`findPolicyInRecent`, `getPolicy`) -/

/-- One entry of the Surge `/v1/requests/recent` response (the fields
the script reads; `policyName` may be absent). -/
structure RecentRequest where
  URL : String
  policyName : Option String
deriving DecidableEq, Repr

/-- Regex `/(api(-ipv4)?\.ip\.sb|ipinfo\.io)/i` applied to a URL. -/
def policyURLTest (url : String) : Bool :=
  let u := strLower url
  strContains u "api.ip.sb" || strContains u "api-ipv4.ip.sb" || strContains u "ipinfo.io"

/-- Embedding of `findPolicyInRecent(pattern, limit)`: search the first
`limit` recent requests for a URL matching the provider pattern and
return its `policyName || null`.  The argument is the `requests` array
of the API response (`none` when the response or the field is absent). -/
def findPolicyInRecent (requests : Option (List RecentRequest)) (limit : Nat) :
    Option String :=
  match requests with
  | none => none
  | some rs =>
    match (rs.take limit).find? (fun r => policyURLTest r.URL) with
    | some hit => truthyOrNull hit.policyName
    | none => none

/-- Embedding of `getPolicy()`.  `recent1` and `recent2` are the two
successive snapshots of the recent-requests list (the second taken
after the fixed retry delay); `store` is the persisted
`lastProxyPolicy` value.  Returns the policy name and the store state
after the call. -/
def getPolicy (recent1 recent2 : Option (List RecentRequest))
    (store : Option String) : String × Option String :=
  match findPolicyInRecent recent1 10 with
  | some policy => (policy, some policy)
  | none =>
    match findPolicyInRecent recent2 5 with
    | some policy => (policy, some policy)
    | none =>
      match store with
      | some lastPolicy =>
        if lastPolicy ≠ "" then (lastPolicy, store) else ("Unknown", store)
      | none => ("Unknown", store)

/-! ### IP acquisition (`fetchIPs`) -/

/-- The field of an ip.sb `/geoip` response that `fetchIPs` reads. -/
structure IpSbGeo where
  ip : Option String
deriving DecidableEq, Repr

/-- The nested `data.addr` shape of the bilibili zone response. -/
structure BiliZoneData where
  addr : Option String
deriving DecidableEq, Repr

/-- The bilibili zone response as read by `fetchIPs`. -/
structure BiliZone where
  data : Option BiliZoneData
deriving DecidableEq, Repr

/-- The record returned by `fetchIPs`. -/
structure FetchResult where
  inIP : Option String
  outIP : Option String
  outIPv6 : Option String
  inRaw : Option BiliZone
  outRaw : Option IpSbGeo
  v6Raw : Option IpSbGeo
deriving DecidableEq, Repr

/-- Embedding of `fetchIPs()`.  `enter`, `exitV4` and `exit6` are the
three parallel responses; `exit6 = none` also covers the case where the
IPv6 race timer won. -/
def fetchIPs (enter : Option BiliZone) (exitV4 : Option IpSbGeo)
    (exit6 : Option IpSbGeo) : FetchResult :=
  let v6ip := exit6.bind IpSbGeo.ip
  let hasIPv6 :=
    match v6ip with
    | some s => s ≠ "" && strContains s ":"
    | none => false
  { inIP := truthyOrNull ((enter.bind BiliZone.data).bind BiliZoneData.addr),
    outIP := truthyOrNull (exitV4.bind IpSbGeo.ip),
    outIPv6 := if hasIPv6 then v6ip else none,
    inRaw := enter,
    outRaw := exitV4,
    v6Raw := if hasIPv6 then exit6 else none }

/-! ### Change detector (`checkIPChange`) -/

/-- The persisted `lastNetworkInfoEvent` snapshot
`{inIP, outIP, outIP6}`.  Each field is a string or `null`, exactly the
values the orchestrator passes; the store state is `Option Snapshot`
with `none` for an absent key or a value whose `JSON.parse` fails
(both leave `lastData = {}`, which compares unequal to any reachable
current triple). -/
structure Snapshot where
  inIP : Option String
  outIP : Option String
  outIP6 : Option String
deriving DecidableEq, Repr

/-- Embedding of `checkIPChange(inIP, outIP, outIPv6)`.  Returns the
boolean result and the snapshot-store state after the call. -/
def checkIPChange (isEvent : Bool) (inIP outIP outIPv6 : Option String)
    (store : Option Snapshot) : Bool × Option Snapshot :=
  if !isEvent then (true, store)
  else
    match store with
    | some lastData =>
      if inIP = lastData.inIP ∧ outIP = lastData.outIP ∧ outIPv6 = lastData.outIP6 then
        (false, store)
      else
        (true, some ⟨inIP, outIP, outIPv6⟩)
    | none => (true, some ⟨inIP, outIP, outIPv6⟩)

/-! ### Risk levels and `riskText` -/

/-- One entry of `CONFIG.riskLevels`. -/
structure RiskLevel where
  max : Int
  label : String
  color : String
deriving DecidableEq, Repr

/-- The `CONFIG.riskLevels` table. -/
def riskLevels : List RiskLevel :=
  [⟨15, "極度純淨 IP", "#0D6E3D"⟩,
   ⟨25, "純淨 IP", "#2E9F5E"⟩,
   ⟨40, "一般 IP", "#8BC34A"⟩,
   ⟨50, "微風險 IP", "#FFC107"⟩,
   ⟨70, "一般風險 IP", "#FF9800"⟩,
   ⟨100, "極度風險 IP", "#F44336"⟩]

/-- Embedding of `riskText(score)`:
`CONFIG.riskLevels.find(l => score <= l.max) || CONFIG.riskLevels.at(-1)`,
projected to `{label, color}`. -/
def riskText (score : Int) : String × String :=
  let level := (riskLevels.find? (fun l => score ≤ l.max)).getD (riskLevels.getLastD ⟨0, "", ""⟩)
  (level.label, level.color)

/-! ### Geo formatting (`flag`, `maskIP`, `formatGeo`) -/

/-- Embedding of `flag(cc)`: two-letter code to regional-indicator pair,
with the TW→CN substitution; empty output for an absent or
non-2-character code. -/
def flag (cc : Option String) : String :=
  match cc with
  | none => ""
  | some s0 =>
    if s0.length = 2 then
      let s := if strUpper s0 = "TW" then "CN" else s0
      match s.data with
      | [a, b] =>
        String.mk [Char.ofNat (0x1f1e6 + a.toNat - 65), Char.ofNat (0x1f1e6 + b.toNat - 65)]
      | _ => ""
    else ""

/-- Embedding of `maskIP(ip)`: keep the first and last segment, star
the middle (IPv6 splits on `:`, IPv4 on `.`; other shapes pass
through). -/
def maskIP (ip : String) : String :=
  if ip = "" then ip
  else if strContains ip ":" then
    let parts := (splitOnCh ':' ip.data).map String.mk
    if parts.length ≤ 2 then ip
    else
      parts.headD "" ++ ":"
        ++ String.intercalate ":" (((parts.drop 1).dropLast).map (fun _ => "*"))
        ++ ":" ++ parts.getLastD ""
  else
    let parts := (splitOnCh '.' ip.data).map String.mk
    if parts.length ≠ 4 then ip
    else parts.headD "" ++ ".*.*." ++ parts.getLastD ""

/-- Embedding of `formatGeo(countryCode, ...parts)`: flag, space, then
the truthy parts joined by `", "` (`parts.filter(Boolean).join(", ")`). -/
def formatGeo (countryCode : Option String) (parts : List (Option String)) : String :=
  flag countryCode ++ " " ++ String.intercalate ", " (parts.filterMap truthyOrNull)

/-! ### Outbound panel section (`buildOutboundSection`) -/

/-- The canonical geo record handed to the panel builders (the shape
produced by the normalizers and the reconciliation merge; every field
may be absent). -/
structure GeoRecord where
  country_code : Option String
  country_name : Option String
  city : Option String
  region : Option String
  org : Option String
deriving DecidableEq, Repr

/-- The helper `ct(info)` of the panel builders: localized country name
in zh mode, ISO code otherwise. -/
def ctField (isZh : Bool) (info : Option GeoRecord) : Option String :=
  if isZh then info.bind GeoRecord.country_name else info.bind GeoRecord.country_code

/-- The helper `m(ip)` of the panel builders, lifted to nullable
strings (`maskIP(null)` returns `null`). -/
def maskApplied (isMask : Bool) (ip : Option String) : Option String :=
  if isMask then ip.map maskIP else ip

/-- JS string concatenation with a nullable operand: `null` prints as
`"null"`. -/
def showJS (o : Option String) : String :=
  match o with
  | some s => s
  | none => "null"

/-- The display fallback `info?.org || "Unknown"`. -/
def orgOr (info : Option GeoRecord) : String :=
  match truthyOrNull (info.bind GeoRecord.org) with
  | some s => s
  | none => "Unknown"

/-- Embedding of `buildOutboundSection(outIP, outIPv6, outInfo, ipv6Info,
isZh, isMask)`, returning the `lines` array. -/
def buildOutboundSection (outIP outIPv6 : Option String)
    (outInfo ipv6Info : Option GeoRecord) (isZh isMask : Bool) : List String :=
  let ct := ctField isZh
  let m := maskApplied isMask
  if !truthyS outIPv6 then
    ["出口 IP：" ++ showJS (m outIP),
     "地區：" ++ formatGeo (outInfo.bind GeoRecord.country_code)
       [outInfo.bind GeoRecord.city, outInfo.bind GeoRecord.region, ct outInfo],
     "電信商：" ++ orgOr outInfo]
  else
    let sameLocation :=
      outInfo.bind GeoRecord.country_code = ipv6Info.bind GeoRecord.country_code
        ∧ outInfo.bind GeoRecord.org = ipv6Info.bind GeoRecord.org
    if sameLocation then
      ["出口 IP⁴：" ++ showJS (m outIP),
       "出口 IP⁶：" ++ showJS (m outIPv6),
       "地區：" ++ formatGeo (outInfo.bind GeoRecord.country_code)
         [outInfo.bind GeoRecord.city, outInfo.bind GeoRecord.region, ct outInfo],
       "電信商：" ++ orgOr outInfo]
    else
      ["出口 IP⁴：" ++ showJS (m outIP),
       "地區⁴：" ++ formatGeo (outInfo.bind GeoRecord.country_code)
         [outInfo.bind GeoRecord.city, outInfo.bind GeoRecord.region, ct outInfo],
       "電信商⁴：" ++ orgOr outInfo,
       "",
       "出口 IP⁶：" ++ showJS (m outIPv6),
       "地區⁶：" ++ formatGeo (ipv6Info.bind GeoRecord.country_code)
         [ipv6Info.bind GeoRecord.city, ipv6Info.bind GeoRecord.region, ct ipv6Info],
       "電信商⁶：" ++ orgOr ipv6Info]

/-! ### One-shot completion guard (`done`) -/

/-- One call to `done(o)`: if `finished` is already set the call is
discarded, otherwise `finished` is set and `$done(o)` is emitted.  The
state is the `finished` flag together with the list of `$done`
emissions so far. -/
def doneCall (st : Bool × List α) (o : α) : Bool × List α :=
  if st.1 then st else (true, st.2 ++ [o])

/-- Run a whole sequence of `done` calls of one script run, starting
from `finished = false` and no emission. -/
def runDoneCalls (calls : List α) : Bool × List α :=
  calls.foldl doneCall (false, [])

/-! ## Theorems -/

/-- Once the `finished` flag is set, every later `done` call leaves the
state (and the emission list) unchanged. -/
theorem foldl_doneCall_finished (rest : List α) (acc : List α) :
    rest.foldl doneCall (true, acc) = (true, acc) := by
  induction rest with
  | nil => rfl
  | cons a rest ih => simpa [doneCall] using ih

/-- C9: exactly one terminal result is ever emitted per run: for any
nonempty sequence of `done` calls (watchdog timeout, acquisition
failure, unchanged network, normal completion, in any order), `$done`
is invoked exactly once, with the argument of the first call; all
later calls are discarded by the one-shot guard. -/
theorem runDoneCalls_at_most_once (calls : List α) (h : calls ≠ []) :
    (runDoneCalls calls).2 = [calls.head h] ∧ (runDoneCalls calls).1 = true := by
  match calls with
  | a :: rest =>
    have : runDoneCalls (a :: rest) = rest.foldl doneCall (true, [a]) := by
      simp [runDoneCalls, doneCall]
    rw [this, foldl_doneCall_finished]
    exact ⟨rfl, rfl⟩

/-- Witness for C9 at a concrete call sequence: the watchdog fires
first, two later completions are discarded. -/
theorem runDoneCalls_at_most_once_witness :
    (runDoneCalls ["timeout", "unchanged", "normal"]).2 = ["timeout"] :=
  (runDoneCalls_at_most_once ["timeout", "unchanged", "normal"] (by decide)).1

/-- C10: `riskText` is total over all scores, including scores above
100 (no bucket's `max` covers them): any score above 100 falls back to
the last level's label and color, and any score at most 100 gets the
label and color of the first bucket whose `max` is at least the
score (enumerated against the concrete `CONFIG.riskLevels` table). -/
theorem riskText_total (score : Int) :
    (100 < score → riskText score = ("極度風險 IP", "#F44336")) ∧
    (score ≤ 15 → riskText score = ("極度純淨 IP", "#0D6E3D")) ∧
    (15 < score → score ≤ 25 → riskText score = ("純淨 IP", "#2E9F5E")) ∧
    (25 < score → score ≤ 40 → riskText score = ("一般 IP", "#8BC34A")) ∧
    (40 < score → score ≤ 50 → riskText score = ("微風險 IP", "#FFC107")) ∧
    (50 < score → score ≤ 70 → riskText score = ("一般風險 IP", "#FF9800")) ∧
    (70 < score → score ≤ 100 → riskText score = ("極度風險 IP", "#F44336")) := by
  refine ⟨?_, ?_, ?_, ?_, ?_, ?_, ?_⟩
  · intro h
    have n1 : ¬ (score ≤ 15) := by omega
    have n2 : ¬ (score ≤ 25) := by omega
    have n3 : ¬ (score ≤ 40) := by omega
    have n4 : ¬ (score ≤ 50) := by omega
    have n5 : ¬ (score ≤ 70) := by omega
    have n6 : ¬ (score ≤ 100) := by omega
    simp [riskText, riskLevels, List.find?, List.getLastD, n1, n2, n3, n4, n5, n6]
  · intro h
    simp [riskText, riskLevels, List.find?, h]
  · intro h h'
    have n1 : ¬ (score ≤ 15) := by omega
    simp [riskText, riskLevels, List.find?, n1, h']
  · intro h h'
    have n1 : ¬ (score ≤ 15) := by omega
    have n2 : ¬ (score ≤ 25) := by omega
    simp [riskText, riskLevels, List.find?, n1, n2, h']
  · intro h h'
    have n1 : ¬ (score ≤ 15) := by omega
    have n2 : ¬ (score ≤ 25) := by omega
    have n3 : ¬ (score ≤ 40) := by omega
    simp [riskText, riskLevels, List.find?, n1, n2, n3, h']
  · intro h h'
    have n1 : ¬ (score ≤ 15) := by omega
    have n2 : ¬ (score ≤ 25) := by omega
    have n3 : ¬ (score ≤ 40) := by omega
    have n4 : ¬ (score ≤ 50) := by omega
    simp [riskText, riskLevels, List.find?, n1, n2, n3, n4, h']
  · intro h h'
    have n1 : ¬ (score ≤ 15) := by omega
    have n2 : ¬ (score ≤ 25) := by omega
    have n3 : ¬ (score ≤ 40) := by omega
    have n4 : ¬ (score ≤ 50) := by omega
    have n5 : ¬ (score ≤ 70) := by omega
    simp [riskText, riskLevels, List.find?, n1, n2, n3, n4, n5, h']

/-- Witness for C10 at concrete scores 160 (above every bucket) and 12. -/
theorem riskText_total_witness :
    riskText 160 = ("極度風險 IP", "#F44336") ∧ riskText 12 = ("極度純淨 IP", "#0D6E3D") :=
  ⟨(riskText_total 160).1 (by decide), (riskText_total 12).2.1 (by decide)⟩

/-- C4: a v6-provider response whose address contains no colon (an
IPv4-shaped answer delivered over IPv4) is discarded: `outIPv6` and
`v6Raw` are reported absent; conversely `outIPv6` is non-`none` only
when the returned address contains a colon. -/
theorem fetchIPs_v6_guard (enter : Option BiliZone) (exitV4 exit6 : Option IpSbGeo) :
    (∀ p s, exit6 = some p → p.ip = some s → strContains s ":" = false →
      (fetchIPs enter exitV4 exit6).outIPv6 = none ∧
      (fetchIPs enter exitV4 exit6).v6Raw = none) ∧
    (∀ s, (fetchIPs enter exitV4 exit6).outIPv6 = some s → strContains s ":" = true) := by
  constructor
  · rintro p s rfl hip hcol
    simp [fetchIPs, hip, hcol]
  · intro s hs
    simp only [fetchIPs] at hs
    cases hv : exit6.bind IpSbGeo.ip with
    | none => simp [hv] at hs
    | some t =>
      rw [hv] at hs
      by_cases hb : (t ≠ "" && strContains t ":") = true
      · rw [if_pos hb] at hs
        cases hs
        exact (Bool.and_eq_true _ _ |>.mp hb).2
      · rw [if_neg hb] at hs
        exact absurd hs (by simp)

/-- Witness for C4: the v6 provider answers with the IPv4-shaped string
`"1.2.3.4"`; the resolved v6 address and raw payload are absent. -/
theorem fetchIPs_v6_guard_witness :
    (fetchIPs none none (some ⟨some "1.2.3.4"⟩)).outIPv6 = none ∧
    (fetchIPs none none (some ⟨some "1.2.3.4"⟩)).v6Raw = none :=
  (fetchIPs_v6_guard none none (some ⟨some "1.2.3.4"⟩)).1
    ⟨some "1.2.3.4"⟩ "1.2.3.4" rfl rfl (by decide)

/-- C5: in event mode, after `checkIPChange` has run once with a triple
and left the snapshot store in its post-call state, a second call with
the identical triple (including an absent v6 on both sides) returns
`false` and leaves the store untouched; moreover whenever the result is
`false` the store is not written, i.e. the snapshot is written only
when a change is detected or no prior snapshot exists. -/
theorem checkIPChange_second_call (inIP outIP outIPv6 : Option String)
    (store : Option Snapshot) :
    (checkIPChange true inIP outIP outIPv6
        (checkIPChange true inIP outIP outIPv6 store).2
      = (false, (checkIPChange true inIP outIP outIPv6 store).2)) ∧
    (∀ st : Option Snapshot, (checkIPChange true inIP outIP outIPv6 st).1 = false →
      (checkIPChange true inIP outIP outIPv6 st).2 = st) := by
  constructor
  · cases store with
    | none => simp [checkIPChange]
    | some snap =>
      by_cases h : inIP = snap.inIP ∧ outIP = snap.outIP ∧ outIPv6 = snap.outIP6
      · simp [checkIPChange, h]
      · simp [checkIPChange, h]
  · intro st hfalse
    cases st with
    | none => simp [checkIPChange] at hfalse
    | some snap =>
      by_cases h : inIP = snap.inIP ∧ outIP = snap.outIP ∧ outIPv6 = snap.outIP6
      · simp [checkIPChange, h]
      · simp [checkIPChange, h] at hfalse

/-- Witness for C5: a concrete first call persists the snapshot (with
v6 absent), the second call with the identical triple reports no
change and leaves the store as the first call left it. -/
theorem checkIPChange_second_call_witness :
    (checkIPChange true (some "1.1.1.1") (some "2.2.2.2") none
        (checkIPChange true (some "1.1.1.1") (some "2.2.2.2") none none).2
      = (false, (checkIPChange true (some "1.1.1.1") (some "2.2.2.2") none none).2)) ∧
    (checkIPChange true (some "1.1.1.1") (some "2.2.2.2") none
        (some ⟨some "1.1.1.1", some "2.2.2.2", none⟩)).2
      = some ⟨some "1.1.1.1", some "2.2.2.2", none⟩ :=
  ⟨(checkIPChange_second_call (some "1.1.1.1") (some "2.2.2.2") none none).1,
   (checkIPChange_second_call (some "1.1.1.1") (some "2.2.2.2") none none).2
     (some ⟨some "1.1.1.1", some "2.2.2.2", none⟩) (by decide)⟩

/-- C8: `getIPType` treats tier 1 as successful whenever
`isResidential` is present with any boolean value (including `false`,
classifying without consulting tier 2); tier 2 runs only when the
field is absent; and when the field is absent and the tier-2 HTML
fetch returns nothing, the result is the explicit unknown/unknown
sentinel. -/
theorem getIPType_tiering (info : Option IpPureInfo) (card : Option String) :
    (∀ i b, info = some i → i.isResidential = some b →
      (∀ card' : Option String, getIPType info card' = getIPType info card) ∧
      getIPType info card =
        ⟨if b then "住宅 IP" else "機房 IP",
         if i.isBroadcast.getD false then "廣播 IP" else "原生 IP"⟩) ∧
    (info.bind IpPureInfo.isResidential = none →
      getIPType info card = getIPTypeTier2 card) ∧
    (info.bind IpPureInfo.isResidential = none → card = none →
      getIPType info card = ⟨"未知", "未知"⟩) := by
  refine ⟨?_, ?_, ?_⟩
  · rintro i b rfl hres
    exact ⟨fun card' => by simp [getIPType, hres], by simp [getIPType, hres]⟩
  · intro habs
    cases info with
    | none => rfl
    | some i =>
      cases hres : i.isResidential with
      | none => simp [getIPType, hres]
      | some b => simp [hres] at habs
  · rintro habs rfl
    cases info with
    | none => rfl
    | some i =>
      cases hres : i.isResidential with
      | none => simp [getIPType, hres, getIPTypeTier2]
      | some b => simp [hres] at habs

/-- Witness for C8: tier 1 reports `isResidential = false` — classified
as a datacenter IP without consulting tier 2 — and a fully failed pair
of tiers yields the unknown/unknown sentinel. -/
theorem getIPType_tiering_witness :
    getIPType (some ⟨some false, none⟩) (some "住宅 residential") = ⟨"機房 IP", "原生 IP"⟩ ∧
    getIPType none none = ⟨"未知", "未知"⟩ := by
  constructor
  · have h := ((getIPType_tiering (some ⟨some false, none⟩) none).1
      ⟨some false, none⟩ false rfl rfl)
    calc getIPType (some ⟨some false, none⟩) (some "住宅 residential")
        = getIPType (some ⟨some false, none⟩) none := h.1 (some "住宅 residential") ▸ rfl
      _ = ⟨"機房 IP", "原生 IP"⟩ := by simpa using h.2
  · exact (getIPType_tiering none none).2.2 rfl rfl

/-- C7: `getPolicy` never fails: it returns the match from the first
search of the newest 10 recent requests, otherwise the match from the
post-delay re-search of the newest 5, otherwise the persisted
last-known policy, and the literal `"Unknown"` only when nothing
usable was ever persisted; each tier-1/tier-2 discovery persists the
found name, while the two fallback paths leave the store unwritten. -/
theorem getPolicy_tiering (recent1 recent2 : Option (List RecentRequest))
    (store : Option String) :
    (∀ p, findPolicyInRecent recent1 10 = some p →
      getPolicy recent1 recent2 store = (p, some p)) ∧
    (findPolicyInRecent recent1 10 = none →
      ∀ p, findPolicyInRecent recent2 5 = some p →
        getPolicy recent1 recent2 store = (p, some p)) ∧
    (findPolicyInRecent recent1 10 = none → findPolicyInRecent recent2 5 = none →
      ∀ s, store = some s → s ≠ "" → getPolicy recent1 recent2 store = (s, store)) ∧
    (findPolicyInRecent recent1 10 = none → findPolicyInRecent recent2 5 = none →
      store = none ∨ store = some "" →
        getPolicy recent1 recent2 store = ("Unknown", store)) := by
  refine ⟨?_, ?_, ?_, ?_⟩
  · intro p hp
    simp [getPolicy, hp]
  · intro h1 p hp
    simp [getPolicy, h1, hp]
  · rintro h1 h2 s rfl hs
    simp [getPolicy, h1, h2, hs]
  · rintro h1 h2 (rfl | rfl) <;> simp [getPolicy, h1, h2]

/-- Witness for C7 at concrete inputs: an empty tier-1 window, a tier-2
window whose head matches the provider pattern, and an empty store; the
found policy is returned and persisted. -/
theorem getPolicy_tiering_witness :
    getPolicy (some []) (some [⟨"https://api.ip.sb/geoip", some "Proxy"⟩]) none
      = ("Proxy", some "Proxy") :=
  (getPolicy_tiering (some []) (some [⟨"https://api.ip.sb/geoip", some "Proxy"⟩]) none).2.1
    (by decide) "Proxy" (by decide)

/-- Every path of the miss branch of `getRiskScore` saves a cache entry
keyed by the queried address whose score and source are the ones
returned. -/
theorem riskMiss_caches (env : RiskEnv) (ip : String) :
    ∃ e : RiskCacheEntry, (riskMiss env ip).2.1 = some e ∧ e.ip = ip ∧
      (riskMiss env ip).1 = ⟨e.score, e.source⟩ := by
  unfold riskMiss riskTier23 saveAndReturn
  by_cases hk : env.ipqsKey ≠ "" <;>
    simp [hk] <;>
    cases ipqsScore env.ipqsResp <;>
    cases proxyRisk env.proxyResp <;>
    cases parseScamalyticsScore env.scamHtml <;>
    simp

/-- After any `getRiskScore` call, the cache holds an entry for the
queried address recording exactly the returned score and source. -/
theorem getRiskScore_caches (env : RiskEnv) (cache : Option RiskCacheEntry) (ip : String) :
    ∃ e : RiskCacheEntry, (getRiskScore env cache ip).2.1 = some e ∧ e.ip = ip ∧
      (getRiskScore env cache ip).1 = ⟨e.score, e.source⟩ := by
  cases cache with
  | none => exact riskMiss_caches env ip
  | some c =>
    by_cases h : c.ip = ip
    · exact ⟨c, by simp [getRiskScore, h]⟩
    · simpa [getRiskScore, h] using riskMiss_caches env ip

/-- C1: when the persisted risk-cache entry parses and its stored
address equals the queried address, `getRiskScore` returns the cached
`{score, source}` immediately, with no provider query and no cache
write; consequently a second call in the same run with the address
unchanged (whatever the providers would now answer) returns the
identical `{score, source}` with no provider call and no write. -/
theorem getRiskScore_cache_hit (env : RiskEnv) (cache : Option RiskCacheEntry) (ip : String) :
    (∀ c, cache = some c → c.ip = ip →
      getRiskScore env cache ip = (⟨c.score, c.source⟩, cache, [])) ∧
    (∀ env' : RiskEnv,
      getRiskScore env' (getRiskScore env cache ip).2.1 ip
        = ((getRiskScore env cache ip).1, (getRiskScore env cache ip).2.1, [])) := by
  constructor
  · rintro c rfl h
    simp [getRiskScore, h]
  · intro env'
    obtain ⟨e, he, heip, hres⟩ := getRiskScore_caches env cache ip
    rw [he, hres]
    simp [getRiskScore, heip]

/-- Witness for C1: a concrete cached entry for the queried address is
returned verbatim with no provider query and no write. -/
theorem getRiskScore_cache_hit_witness :
    getRiskScore ⟨"key", some ⟨true, some 99⟩, none, none⟩
        (some ⟨"9.9.9.9", 7, "Scamalytics"⟩) "9.9.9.9"
      = (⟨7, "Scamalytics"⟩, some ⟨"9.9.9.9", 7, "Scamalytics"⟩, []) :=
  (getRiskScore_cache_hit ⟨"key", some ⟨true, some 99⟩, none, none⟩
      (some ⟨"9.9.9.9", 7, "Scamalytics"⟩) "9.9.9.9").1
    ⟨"9.9.9.9", 7, "Scamalytics"⟩ rfl rfl

/-- C2: on a cache miss, when tier 1 is skipped (no credential) or
yields no score, and neither the ProxyCheck risk field nor the
Scamalytics HTML yields a score, `getRiskScore` returns exactly
`{score: 50, source: "Default"}` and persists that default tuple to
the risk cache. -/
theorem getRiskScore_default (env : RiskEnv) (cache : Option RiskCacheEntry) (ip : String)
    (hmiss : cache = none ∨ ∃ c, cache = some c ∧ c.ip ≠ ip)
    (h1 : env.ipqsKey = "" ∨ ipqsScore env.ipqsResp = none)
    (h2 : proxyRisk env.proxyResp = none)
    (h3 : parseScamalyticsScore env.scamHtml = none) :
    (getRiskScore env cache ip).1 = ⟨50, "Default"⟩ ∧
    (getRiskScore env cache ip).2.1 = some ⟨ip, 50, "Default"⟩ := by
  have hm : getRiskScore env cache ip = riskMiss env ip := by
    rcases hmiss with rfl | ⟨c, rfl, hc⟩
    · rfl
    · simp [getRiskScore, hc]
  have hdef : riskMiss env ip = riskTier23 env ip [Provider.ipqs] ∨
      riskMiss env ip = riskTier23 env ip [] := by
    rcases h1 with hk | hs
    · right; simp [riskMiss, hk]
    · by_cases hk : env.ipqsKey ≠ ""
      · left; simp [riskMiss, hk, hs]
      · right; simp [riskMiss, hk]
  rw [hm]
  rcases hdef with hd | hd <;>
    rw [hd] <;> simp [riskTier23, h2, h3, saveAndReturn]

/-- Witness for C2: no credential, a ProxyCheck response without a risk
field and an unparseable Scamalytics page; the default tuple is
returned and persisted. -/
theorem getRiskScore_default_witness :
    (getRiskScore ⟨"", none, some ⟨none⟩, some "<html>no score</html>"⟩ none "8.8.8.8").1
        = ⟨50, "Default"⟩ ∧
    (getRiskScore ⟨"", none, some ⟨none⟩, some "<html>no score</html>"⟩ none "8.8.8.8").2.1
        = some ⟨"8.8.8.8", 50, "Default"⟩ :=
  getRiskScore_default ⟨"", none, some ⟨none⟩, some "<html>no score</html>"⟩ none "8.8.8.8"
    (Or.inl rfl) (Or.inl rfl) rfl (by decide)

/-- Characters captured by `([0-9]{1,3})` are digits. -/
theorem isDig_of_mem_firstDigits3 {x : Char} {cs : List Char}
    (hx : x ∈ firstDigits3 cs) : isDig x = true :=
  List.mem_takeWhile_imp (List.take_subset _ _ hx)

/-- Value bound for a single digit character. -/
theorem digitVal_le {x : Char} (hx : isDig x = true) : digitVal x ≤ 9 := by
  unfold isDig at hx
  simp only [Bool.and_eq_true, decide_eq_true_eq] at hx
  unfold digitVal
  omega

/-- One attempt of the Scamalytics pattern captures at most 3 digits,
hence a value of at most 999. -/
theorem scamTryAt_le {cs : List Char} {n : Nat} (h : scamTryAt cs = some n) :
    n ≤ 999 := by
  unfold scamTryAt at h
  cases hp : ciMatch "Fraud Score".toList cs with
  | none => rw [hp] at h; cases h
  | some rest =>
    rw [hp] at h
    dsimp only at h
    cases hd : firstDigits3 (afterNonDigits rest) with
    | nil => rw [hd] at h; cases h
    | cons a t =>
      have ha : isDig a = true :=
        isDig_of_mem_firstDigits3 (by rw [hd]; exact List.mem_cons_self a t)
      have hva := digitVal_le ha
      cases t with
      | nil => rw [hd] at h; cases h; omega
      | cons b t' =>
        have hb : isDig b = true :=
          isDig_of_mem_firstDigits3 (by rw [hd]; simp)
        have hvb := digitVal_le hb
        cases t' with
        | nil => rw [hd] at h; cases h; omega
        | cons c t'' =>
          have hc : isDig c = true :=
            isDig_of_mem_firstDigits3 (by rw [hd]; simp)
          have hvc := digitVal_le hc
          rw [hd] at h; cases h; omega

/-- Scanning all start positions preserves the 3-digit bound. -/
theorem scamScan_le {cs : List Char} {n : Nat} (h : scamScan cs = some n) :
    n ≤ 999 := by
  induction cs with
  | nil => cases h
  | cons c cs ih =>
    unfold scamScan at h
    cases ht : scamTryAt (c :: cs) with
    | some m => rw [ht] at h; cases h; exact scamTryAt_le ht
    | none => rw [ht] at h; exact ih h

/-- Any score parsed from a Scamalytics page lies in `[0, 999]`. -/
theorem parseScamalyticsScore_le {html : Option String} {n : Nat}
    (h : parseScamalyticsScore html = some n) : n ≤ 999 := by
  cases html with
  | none => cases h
  | some s => exact scamScan_le h

/-- C3 counterexample: a well-formed Scamalytics page reporting
`Fraud Score: 999` makes `getRiskScore` return score 999 — outside
`[0,100]` — so the claim as stated (every result's score lies in
`[0,100]`) is false at this concrete input. -/
theorem getRiskScore_range_counterexample :
    (getRiskScore ⟨"", none, none, some "Fraud Score: 999"⟩ none "1.2.3.4").1
        = ⟨999, "Scamalytics"⟩ ∧
    ¬ ((getRiskScore ⟨"", none, none, some "Fraud Score: 999"⟩ none "1.2.3.4").1.score
        ≤ 100) := by
  decide

/-- The miss path only ever labels results with the four defined tags. -/
theorem riskMiss_source_cases (env : RiskEnv) (ip : String) :
    (riskMiss env ip).1.source = "IPQS" ∨ (riskMiss env ip).1.source = "ProxyCheck" ∨
    (riskMiss env ip).1.source = "Scamalytics" ∨ (riskMiss env ip).1.source = "Default" := by
  unfold riskMiss riskTier23 saveAndReturn
  by_cases hk : env.ipqsKey ≠ "" <;> simp [hk] <;>
    cases ipqsScore env.ipqsResp <;> cases proxyRisk env.proxyResp <;>
    cases parseScamalyticsScore env.scamHtml <;> simp

/-- C3 amended: `getRiskScore` is total (never throws) and its source is
always one of the defined tags `IPQS`, `ProxyCheck`, `Scamalytics`,
`Default`, or it echoes the cached entry verbatim; but provider scores
are passed through unclamped, so the score is only guaranteed to lie in
`[0,100]` on the Default path (score exactly 50); a Scamalytics-sourced
score lies in `[0,999]`, and IPQS/ProxyCheck-sourced scores are the
provider's reported numbers, unchecked. -/
theorem getRiskScore_sources_amended (env : RiskEnv) (cache : Option RiskCacheEntry)
    (ip : String) :
    ((getRiskScore env cache ip).1.source = "IPQS" ∨
     (getRiskScore env cache ip).1.source = "ProxyCheck" ∨
     (getRiskScore env cache ip).1.source = "Scamalytics" ∨
     (getRiskScore env cache ip).1.source = "Default" ∨
     (∃ c, cache = some c ∧ c.ip = ip ∧ (getRiskScore env cache ip).1 = ⟨c.score, c.source⟩)) ∧
    ((riskMiss env ip).1.source = "Default" → (riskMiss env ip).1.score = 50) ∧
    ((riskMiss env ip).1.source = "Scamalytics" →
      0 ≤ (riskMiss env ip).1.score ∧ (riskMiss env ip).1.score ≤ 999) := by
  refine ⟨?_, ?_, ?_⟩
  · cases cache with
    | none =>
      have h := riskMiss_source_cases env ip
      simpa [getRiskScore] using by tauto
    | some c =>
      by_cases hip : c.ip = ip
      · exact Or.inr (Or.inr (Or.inr (Or.inr ⟨c, rfl, hip, by simp [getRiskScore, hip]⟩)))
      · have h := riskMiss_source_cases env ip
        simp only [getRiskScore, hip, if_neg]
        tauto
  · intro hsrc
    by_cases hk : env.ipqsKey ≠ "" <;>
      cases hi : ipqsScore env.ipqsResp <;>
      cases hpx : proxyRisk env.proxyResp <;>
      cases hsc : parseScamalyticsScore env.scamHtml <;>
      simp_all [riskMiss, riskTier23, saveAndReturn]
  · intro hsrc
    by_cases hk : env.ipqsKey ≠ "" <;>
      cases hi : ipqsScore env.ipqsResp <;>
      cases hpx : proxyRisk env.proxyResp <;>
      cases hsc : parseScamalyticsScore env.scamHtml <;>
      simp_all [riskMiss, riskTier23, saveAndReturn] <;>
      exact_mod_cast parseScamalyticsScore_le hsc

/-- C6: whenever a v6 address is present, the outbound report collapses
to a single location block iff the v4 and v6 canonical records agree
exactly on both the ISO country code and the carrier string (a 4-line
section with one unannotated `地區`/`電信商` pair); when either field
differs, two separate blocks annotated with superscript 4 and 6 are
emitted instead. -/
theorem buildOutboundSection_collapse (outIP outIPv6 : Option String)
    (outInfo ipv6Info : Option GeoRecord) (isZh isMask : Bool)
    (h6 : truthyS outIPv6 = true) :
    ((outInfo.bind GeoRecord.country_code = ipv6Info.bind GeoRecord.country_code ∧
      outInfo.bind GeoRecord.org = ipv6Info.bind GeoRecord.org) ↔
      (buildOutboundSection outIP outIPv6 outInfo ipv6Info isZh isMask).length = 4) ∧
    ((outInfo.bind GeoRecord.country_code = ipv6Info.bind GeoRecord.country_code ∧
      outInfo.bind GeoRecord.org = ipv6Info.bind GeoRecord.org) →
      ∃ a b g t, buildOutboundSection outIP outIPv6 outInfo ipv6Info isZh isMask
        = [a, b, "地區：" ++ g, "電信商：" ++ t]) ∧
    (¬ (outInfo.bind GeoRecord.country_code = ipv6Info.bind GeoRecord.country_code ∧
        outInfo.bind GeoRecord.org = ipv6Info.bind GeoRecord.org) →
      ∃ a g4 t4 b g6 t6, buildOutboundSection outIP outIPv6 outInfo ipv6Info isZh isMask
        = [a, "地區⁴：" ++ g4, "電信商⁴：" ++ t4, "",
           b, "地區⁶：" ++ g6, "電信商⁶：" ++ t6]) := by
  by_cases hsame : outInfo.bind GeoRecord.country_code = ipv6Info.bind GeoRecord.country_code ∧
      outInfo.bind GeoRecord.org = ipv6Info.bind GeoRecord.org
  · refine ⟨?_, ?_, ?_⟩
    · simp [buildOutboundSection, h6, hsame]
    · intro _
      exact ⟨"出口 IP⁴：" ++ showJS (maskApplied isMask outIP),
        "出口 IP⁶：" ++ showJS (maskApplied isMask outIPv6),
        formatGeo (outInfo.bind GeoRecord.country_code)
          [outInfo.bind GeoRecord.city, outInfo.bind GeoRecord.region, ctField isZh outInfo],
        orgOr outInfo,
        by simp [buildOutboundSection, h6, hsame]⟩
    · intro hcontra
      exact absurd hsame hcontra
  · refine ⟨?_, ?_, ?_⟩
    · simp [buildOutboundSection, h6, hsame]
    · intro hcontra
      exact absurd hcontra hsame
    · intro _
      exact ⟨"出口 IP⁴：" ++ showJS (maskApplied isMask outIP),
        formatGeo (outInfo.bind GeoRecord.country_code)
          [outInfo.bind GeoRecord.city, outInfo.bind GeoRecord.region, ctField isZh outInfo],
        orgOr outInfo,
        "出口 IP⁶：" ++ showJS (maskApplied isMask outIPv6),
        formatGeo (ipv6Info.bind GeoRecord.country_code)
          [ipv6Info.bind GeoRecord.city, ipv6Info.bind GeoRecord.region, ctField isZh ipv6Info],
        orgOr ipv6Info,
        by simp [buildOutboundSection, h6, hsame]⟩

/-- Witness for C6: dual stack with identical country code `"US"` and
identical carrier `"Acme Net"` on both families collapses to a single
4-line location block. -/
theorem buildOutboundSection_collapse_witness :
    (buildOutboundSection (some "2.2.2.2") (some "2001:db8::1")
        (some ⟨some "US", some "United States", some "LA", some "CA", some "Acme Net"⟩)
        (some ⟨some "US", some "United States", some "NY", some "NY", some "Acme Net"⟩)
        false false).length = 4 :=
  (buildOutboundSection_collapse (some "2.2.2.2") (some "2001:db8::1")
      (some ⟨some "US", some "United States", some "LA", some "CA", some "Acme Net"⟩)
      (some ⟨some "US", some "United States", some "NY", some "NY", some "Acme Net"⟩)
      false false (by decide)).1.mp (by decide)

/-- Witness for amended C3 at a concrete input: a Scamalytics-sourced
score obeys the 0–999 passthrough bound. -/
theorem getRiskScore_sources_amended_witness :
    0 ≤ (riskMiss ⟨"", none, none, some "Fraud Score: 42"⟩ "1.1.1.1").1.score ∧
    (riskMiss ⟨"", none, none, some "Fraud Score: 42"⟩ "1.1.1.1").1.score ≤ 999 :=
  (getRiskScore_sources_amended ⟨"", none, none, some "Fraud Score: 42"⟩ none "1.1.1.1").2.2
    (by decide)

end IpSecurity
